import Mathlib

/-! # A shallow embedding of the dnsping probing engine

Definitions below are translated from `src/src/lib.rs` (the continuous-mode
`ping` with its sender and receiver loops) and `src/src/main.rs` (the probe
loop and the final report). Counters are `usize` values modelled as natural
numbers below `2 ^ 64`; latencies are microsecond counts; `f64` arithmetic
over the small integer quantities involved is modelled exactly over `ℚ`,
with `Option` marking a division by zero (which in `f64` yields NaN or an
infinity, and for integer division in Rust panics). -/

namespace Dnsping

/-- Number of values of the 64-bit `usize` counters. -/
def U64 : Nat := 2 ^ 64

/-- `usize::MAX`, that is `2 ^ 64 - 1`. -/
def usizeMax : Nat := U64 - 1

/-- Number of values of a 16-bit query identifier. -/
def u16Mod : Nat := 65536

/-- `u128::MAX`, the initial value of the running minimum latency
(src/src/lib.rs:186). -/
def u128Max : Nat := 2 ^ 128 - 1

/-- The sending period in milliseconds (src/src/lib.rs:114). -/
def PERIOD : Nat := 1000

/-- The packet-loss difference computed at src/src/lib.rs:210-212,
src/src/lib.rs:242-244 and src/src/main.rs:403-405:
`send.checked_sub(recv).unwrap_or_else(|| send + (usize::MAX - recv))`.
`checked_sub` succeeds exactly when `recv ≤ send`; otherwise the fallback
adds `usize::MAX - recv` to `send`. Both arguments are `usize` values,
hence below `2 ^ 64`. -/
def wrapDiff (send recv : Nat) : Nat :=
  if recv ≤ send then send - recv else send + (usizeMax - recv)

/-- C1: the claim states that the packet-loss difference equals
`sent - received` modulo `2 ^ 64`, so that for `received > sent` it equals
`sent - received + 2 ^ 64`. At `sent = 0`, `received = 1` the code computes
`0 + (usize::MAX - 1) = 2 ^ 64 - 2`, while the difference modulo `2 ^ 64`
is `2 ^ 64 - 1`: the fallback branch is one less than the modular
difference. -/
theorem wrapDiff_not_modular :
    wrapDiff 0 1 = U64 - 2 ∧ wrapDiff 0 1 ≠ U64 - 1 ∧
      ((0 : ℤ) - 1) % ((2 : ℤ) ^ 64) = (2 : ℤ) ^ 64 - 1 := by
  refine ⟨by norm_num [wrapDiff, usizeMax, U64], by norm_num [wrapDiff, usizeMax, U64], by decide⟩

/-- C1 (amended): the packet-loss difference never underflows or overflows:
it equals `sent - received` when `received ≤ sent`, and
`sent - received + 2 ^ 64 - 1` (one less than the difference modulo
`2 ^ 64`) when `received > sent`, and in both cases the result is a valid
`usize` value. -/
theorem wrapDiff_characterization (send recv : Nat)
    (hs : send < U64) (hr : recv < U64) :
    (recv ≤ send → wrapDiff send recv = send - recv) ∧
    (send < recv → (wrapDiff send recv : ℤ) = (send : ℤ) - recv + 2 ^ 64 - 1) ∧
    wrapDiff send recv < U64 := by
  have hU : U64 = 2 ^ 64 := rfl
  have hM : usizeMax = 2 ^ 64 - 1 := rfl
  unfold wrapDiff
  refine ⟨fun h => by rw [if_pos h], fun h => ?_, ?_⟩
  · rw [if_neg (by omega)]
    have h1 : recv ≤ usizeMax := by omega
    push_cast [Nat.cast_sub h1]
    omega
  · split <;> omega

/-- Witness for `wrapDiff_characterization` at `sent = 3`, `received = 10`. -/
theorem wrapDiff_characterization_witness :
    (3 : Nat) < U64 ∧ (10 : Nat) < U64 ∧
      (wrapDiff 3 10 : ℤ) = (3 : ℤ) - 10 + 2 ^ 64 - 1 ∧ wrapDiff 3 10 < U64 := by
  have h3 : (3 : Nat) < U64 := by norm_num [U64]
  have h10 : (10 : Nat) < U64 := by norm_num [U64]
  have h := wrapDiff_characterization 3 10 h3 h10
  exact ⟨h3, h10, h.2.1 (by norm_num), h.2.2⟩

/-- The loss percentage of the final report in src/src/main.rs:403-409:
`lost` is `wrapDiff send recv`, and the rate is `0.0` when `send = 0` and
`lost as f64 / send as f64 * 100.0` otherwise, modelled exactly over `ℚ`. -/
def mainLossRate (send recv : Nat) : ℚ :=
  let lost := wrapDiff send recv
  if send = 0 then 0 else (lost : ℚ) / (send : ℚ) * 100

/-- The loss percentage of the final report in src/src/lib.rs:242-247:
`(wrapDiff send recv) as f64 / (send as f64) * 100.0`, with no guard on
`send = 0`. `none` models the `f64` division by zero there (`0.0 / 0.0` is
NaN, `x / 0.0` an infinity): the result is not a number in `[0, 100]`. -/
def libLossRate (send recv : Nat) : Option ℚ :=
  if send = 0 then none
  else some ((wrapDiff send recv : ℚ) / (send : ℚ) * 100)

/-- Reachable pairs `(send, recv)` of the probe-loop counters of
src/src/main.rs:343-396: each iteration first increments `send`
(src/src/main.rs:344) and then increments `recv` only if the probe
succeeded (src/src/main.rs:361). -/
inductive MainCounters : Nat → Nat → Prop where
  | init : MainCounters 0 0
  | probeLost {s r : Nat} : MainCounters s r → MainCounters (s + 1) r
  | probeRecv {s r : Nat} : MainCounters s r → MainCounters (s + 1) (r + 1)

/-- In the sequential probe loop of src/src/main.rs the received counter
never exceeds the sent counter. -/
theorem MainCounters.recv_le_send {s r : Nat} (h : MainCounters s r) : r ≤ s := by
  induction h with
  | init => exact Nat.le_refl 0
  | probeLost _ ih => omega
  | probeRecv _ ih => omega

/-- For `recv ≤ send` the loss rate of src/src/main.rs lies in `[0, 100]`. -/
theorem mainLossRate_bounds {s r : Nat} (h : r ≤ s) :
    0 ≤ mainLossRate s r ∧ mainLossRate s r ≤ 100 := by
  unfold mainLossRate wrapDiff
  rcases Nat.eq_zero_or_pos s with hs | hs
  · simp [hs]
  · rw [if_pos h, if_neg (by omega)]
    have hcast : (0 : ℚ) < (s : ℚ) := by exact_mod_cast hs
    constructor
    · positivity
    · have hle : ((s - r : Nat) : ℚ) / (s : ℚ) ≤ 1 := by
        rw [div_le_one hcast]
        exact_mod_cast Nat.sub_le s r
      calc ((s - r : Nat) : ℚ) / (s : ℚ) * 100 ≤ 1 * 100 := by
            exact mul_le_mul_of_nonneg_right hle (by norm_num)
        _ = 100 := by norm_num

/-- C2: the claim states that every final report defines the loss
percentage as `0` when `sent = 0`, never NaN. The final report of
src/src/lib.rs:242-247 divides without a guard: at `sent = 0`,
`received = 0` it computes `0.0 / 0.0`, which is NaN, not `0`. -/
theorem libLossRate_nan_at_zero_sent :
    libLossRate 0 0 = none ∧ libLossRate 0 0 ≠ some 0 := by
  refine ⟨rfl, by simp [libLossRate]⟩

/-- C2 (amended): the loss percentage of the final report of
src/src/main.rs is `0` when `sent = 0` and lies in `[0, 100]` for every
pair of counters reachable in its probe loop; the final report of
src/src/lib.rs computes the same quotient only when `sent ≠ 0`, and at
`sent = 0` performs an `f64` division by zero (NaN or an infinity) instead
of reporting `0`. -/
theorem lossRate_report_bounds :
    (∀ r : Nat, mainLossRate 0 r = 0) ∧
    (∀ s r : Nat, MainCounters s r →
      0 ≤ mainLossRate s r ∧ mainLossRate s r ≤ 100) ∧
    (∀ r : Nat, libLossRate 0 r = none) ∧
    (∀ s r : Nat, s ≠ 0 → libLossRate s r = some (mainLossRate s r)) := by
  refine ⟨fun r => by simp [mainLossRate], ?_, fun r => by simp [libLossRate], ?_⟩
  · intro s r h
    exact mainLossRate_bounds h.recv_le_send
  · intro s r hs
    simp [libLossRate, mainLossRate, hs]

/-- Witness for `lossRate_report_bounds` at the reachable pair
`sent = 2`, `received = 1` and at `sent = 4`, `received = 1`. -/
theorem lossRate_report_bounds_witness :
    (0 ≤ mainLossRate 2 1 ∧ mainLossRate 2 1 ≤ 100) ∧
      libLossRate 4 1 = some (mainLossRate 4 1) := by
  have h2 : MainCounters 2 1 := .probeLost (.probeRecv .init)
  exact ⟨lossRate_report_bounds.2.1 2 1 h2,
    lossRate_report_bounds.2.2.2 4 1 (by norm_num)⟩

/-- The `rtt min/avg/max` block of the final report of
src/src/lib.rs:248-255: printed only when `recv ≠ 0`, with the average
computed as `(total as f64 / 1000.0) / (recv as f64)`; all three figures
are reported in milliseconds. -/
def libReportRtt (recv minL maxL total : Nat) : Option (ℚ × ℚ × ℚ) :=
  if recv ≠ 0 then
    some ((minL : ℚ) / 1000, ((total : ℚ) / 1000) / (recv : ℚ), (maxL : ℚ) / 1000)
  else none

/-- The `rtt min/avg/max` part of the final report of
src/src/main.rs:410-428. The code first computes
`latency_avg = latency_total / send as u64` (src/src/main.rs:411) — an
integer division by the SENT counter, performed outside the
`recv != 0` guard — and only then prints min/avg/max when `recv ≠ 0`.
The outer `none` models the division-by-zero panic when `send = 0`;
figures are in milliseconds as printed at src/src/main.rs:422-427. -/
def mainReportRtt (send recv total minL maxL : Nat) :
    Option (Option (ℚ × ℚ × ℚ)) :=
  if send = 0 then none
  else
    let latencyAvg := total / send
    some (if recv ≠ 0 then
      some ((minL : ℚ) / 1000, (latencyAvg : ℚ) / 1000, (maxL : ℚ) / 1000)
    else none)

/-- C3: the claim states that the final report computes the average as
total latency divided by the received count, reports min/avg/max only
when `received > 0`, and never divides by zero. src/src/main.rs:411
divides `latency_total` by the SENT counter, outside the `recv != 0`
guard: at `send = 0` (an interrupt before the first probe, or a query
build failure at src/src/main.rs:328-334) the integer division panics,
and at `send = 2`, `recv = 1`, `total = 1000` it reports an average of
`1/2` ms although total divided by received is `1` ms. The report of
src/src/lib.rs:248-255 behaves as the claim states. -/
theorem mainReport_avg_divides_by_sent :
    mainReportRtt 0 0 0 u128Max 0 = none ∧
    mainReportRtt 2 1 1000 1000 1000 = some (some (1, 1 / 2, 1)) ∧
    ((1 : ℚ) / 2) ≠ ((1000 : ℚ) / 1000) / 1 ∧
    libReportRtt 1 1000 1000 1000 = some (1, 1, 1) := by
  refine ⟨rfl, ?_, by norm_num, ?_⟩
  · norm_num [mainReportRtt]
  · norm_num [libReportRtt]

/-- State of the continuous-mode receiver loop of src/src/lib.rs:184-234:
the correlation table (transaction id to send instant, the shared
`HashMap<u16, Instant>` of src/src/lib.rs:131), the received counter and
the running minimum, maximum and total latency in microseconds. -/
structure RecvState where
  timeMap : Nat → Option Nat
  recv : Nat
  minL : Nat
  maxL : Nat
  total : Nat

/-- The initial receiver state of src/src/lib.rs:184-188: empty table,
`recv = 0`, `min = u128::MAX`, `max = 0`, `total = 0`. -/
def recvInit : RecvState :=
  { timeMap := fun _ => none, recv := 0, minL := u128Max, maxL := 0, total := 0 }

/-- One handling of a successfully received datagram by the receiver loop
body of src/src/lib.rs:194-228. `dest` is the ping destination address,
`size` and `sender` the size and source address of the datagram, `parsed`
the transaction id when `Packet::parse` succeeds, and `now` the current
instant (so `now - instant` is the elapsed time of src/src/lib.rs:201).
The datagram is examined only when `size > 0` and the sender matches; a
parsed id found in the table updates min/max/total, increments `recv` and
logs, and for every parsed id the entry is removed afterwards
(src/src/lib.rs:226), whether or not it was found. -/
def recvStep (dest : Nat) (s : RecvState) (size sender : Nat)
    (parsed : Option Nat) (now : Nat) : RecvState :=
  if 0 < size ∧ sender = dest then
    match parsed with
    | some id =>
      match s.timeMap id with
      | some instant =>
        let elapsed := now - instant
        { timeMap := fun j => if j = id then none else s.timeMap j,
          recv := s.recv + 1,
          minL := min s.minL elapsed,
          maxL := max s.maxL elapsed,
          total := s.total + elapsed }
      | none => { s with timeMap := fun j => if j = id then none else s.timeMap j }
    | none => s
  else s

/-- The two kinds of `io::Error` the engine distinguishes
(src/src/main.rs:371-380): a read timeout, and any other transport error. -/
inductive ErrKind where
  | timedOut
  | other
deriving DecidableEq

/-- Result of one blocking `recv_from` call (src/src/lib.rs:194):
a datagram with its size, source address, parse result and arrival
instant, or an `io::Error`. -/
inductive RecvResult where
  | ok (size sender : Nat) (parsed : Option Nat) (now : Nat)
  | ioErr (e : ErrKind)

/-- Outcome of one iteration of the receiver loop of
src/src/lib.rs:189-234: loop again with an updated state, leave the loop
normally (the `break` of src/src/lib.rs:191), or return from `ping` with
an error (src/src/lib.rs:231). -/
inductive RecvOutcome where
  | again (s : RecvState)
  | finished (s : RecvState)
  | errored (e : ErrKind)

/-- One iteration of the receiver loop of src/src/lib.rs:189-234: the stop
flag is checked first (src/src/lib.rs:190-192); then a successful receive
is handled by `recvStep` and the loop continues, while ANY receive error —
the code does not branch on the error kind — returns it from `ping`. -/
def recvIter (dest : Nat) (stopped : Bool) (s : RecvState)
    (r : RecvResult) : RecvOutcome :=
  if stopped then .finished s
  else
    match r with
    | .ok size sender parsed now => .again (recvStep dest s size sender parsed now)
    | .ioErr e => .errored e

/-- C4: a reply from the destination address whose parsed id is pending in
the correlation table increments the received counter exactly once and
removes that entry; a reply from another address leaves the whole state
unchanged, and a parsed id that is not in the table changes none of the
received/min/max/total aggregates. -/
theorem recvStep_matching_reply :
    (∀ (dest : Nat) (s : RecvState) (size sender id now t : Nat),
      0 < size → sender = dest → s.timeMap id = some t →
        (recvStep dest s size sender (some id) now).recv = s.recv + 1 ∧
        (recvStep dest s size sender (some id) now).timeMap id = none) ∧
    (∀ (dest : Nat) (s : RecvState) (size sender now : Nat)
        (parsed : Option Nat), sender ≠ dest →
        recvStep dest s size sender parsed now = s) ∧
    (∀ (dest : Nat) (s : RecvState) (size id now : Nat),
      s.timeMap id = none →
        (recvStep dest s size dest (some id) now).recv = s.recv ∧
        (recvStep dest s size dest (some id) now).minL = s.minL ∧
        (recvStep dest s size dest (some id) now).maxL = s.maxL ∧
        (recvStep dest s size dest (some id) now).total = s.total) := by
  refine ⟨?_, ?_, ?_⟩
  · intro dest s size sender id now t hsize hsender ht
    simp [recvStep, hsize, hsender, ht]
  · intro dest s size sender now parsed hsender
    simp [recvStep, hsender]
  · intro dest s size id now ht
    rcases Nat.eq_zero_or_pos size with hz | hp
    · simp [recvStep, hz]
    · simp [recvStep, hp, ht]

/-- A receiver state with one pending entry: id `5` sent at instant `100`. -/
def pendingFive : RecvState :=
  { timeMap := fun j => if j = 5 then some 100 else none,
    recv := 0, minL := u128Max, maxL := 0, total := 0 }

/-- Witness for `recvStep_matching_reply`: the pending entry for id `5`
is answered by a 12-byte datagram from the destination `9` at instant
`140`. -/
theorem recvStep_matching_reply_witness :
    (recvStep 9 pendingFive 12 9 (some 5) 140).recv = 0 + 1 ∧
    (recvStep 9 pendingFive 12 9 (some 5) 140).timeMap 5 = none :=
  recvStep_matching_reply.1 9 pendingFive 12 9 5 140 100 (by norm_num) rfl
    (by norm_num [pendingFive])

/-- C10: a received datagram of size zero is ignored even when its sender
address equals the destination: the `size > 0` test of src/src/lib.rs:196
fails, the buffer is never parsed, and the state — correlation table and
all aggregates — is returned unchanged. -/
theorem recvStep_zero_size_ignored :
    ∀ (dest : Nat) (s : RecvState) (parsed : Option Nat) (now : Nat),
      recvStep dest s 0 dest parsed now = s := by
  intro dest s parsed now
  simp [recvStep]

/-- C5: the claim states that a `TimedOut` receive error makes the
receiver loop again. The receiver of src/src/lib.rs:189-234 returns on
EVERY receive error without inspecting its kind: with the stop flag not
set, a `TimedOut` result terminates the session with that error instead of
continuing the loop. -/
theorem recvIter_timedOut_terminates :
    recvIter 0 false recvInit (.ioErr .timedOut) = .errored .timedOut ∧
      recvIter 0 false recvInit (.ioErr .timedOut) ≠ .again recvInit := by
  refine ⟨rfl, by simp [recvIter]⟩

/-- C5 (amended): the receiver of src/src/lib.rs terminates the session
with the error on every receive error, the timeout included (the code
never branches on the error kind), and loops only on successful receives.
(The timeout-tolerant behaviour the spec describes lives in the probe loop
of src/src/main.rs:371-380, where a `TimedOut` probe is printed and the
loop continues.) -/
theorem recvIter_error_terminates :
    (∀ (dest : Nat) (s : RecvState) (e : ErrKind),
      recvIter dest false s (.ioErr e) = .errored e) ∧
    (∀ (dest : Nat) (s : RecvState) (size sender now : Nat)
        (parsed : Option Nat),
      recvIter dest false s (.ok size sender parsed now)
        = .again (recvStep dest s size sender parsed now)) := by
  exact ⟨fun dest s e => rfl, fun dest s size sender now parsed => rfl⟩

/-- State owned by the sender thread of src/src/lib.rs:155-182: the
current 16-bit query id, the shared `usize` sent counter and the shared
correlation table. -/
structure SendState where
  id : Nat
  sent : Nat
  timeMap : Nat → Option Nat

/-- The initial sender state: `id = 0` (src/src/lib.rs:156), `sent = 0`
(src/src/lib.rs:135), empty table. -/
def sendInit : SendState := { id := 0, sent := 0, timeMap := fun _ => none }

/-- One iteration of the sender loop body of src/src/lib.rs:157-181:
increment the id (16-bit, wrapping), build the query, record
`(id, now)` in the correlation table (src/src/lib.rs:169), and send: on
success the sent counter is incremented (src/src/lib.rs:174), on failure
an error line is printed to stderr (src/src/lib.rs:176) and nothing else
happens; the loop then sleeps and continues — it never returns. The
returned `Bool` is true exactly when an error line was printed. The loop
body contains NO read of the stop flag; faithful to the source, the
`stopOn` argument — the cancellation input the specification refers to —
is unused, so the iteration is the same whether or not the session was
cancelled. -/
def libSenderIter (_stopOn : Bool) (st : SendState) (now : Nat)
    (sendOk : Bool) : SendState × Bool :=
  let id := (st.id + 1) % u16Mod
  let tm := fun j => (if j = id then some now else st.timeMap j)
  if sendOk then ({ id := id, sent := (st.sent + 1) % U64, timeMap := tm }, false)
  else ({ id := id, sent := st.sent, timeMap := tm }, true)

/-- C6: the claim states that once the stop signal is raised the sender
issues no further queries. The sender loop of src/src/lib.rs:155-182 never
reads the stop flag: with the stop signal raised, the next iteration still
records a fresh entry (id `1`) in the correlation table and sends the
query, incrementing the sent counter. -/
theorem sender_sends_despite_stop :
    ((libSenderIter true sendInit 7 true).1).timeMap 1 = some 7 ∧
      ((libSenderIter true sendInit 7 true).1).sent = 1 := by
  constructor <;> rfl

/-- C6 (amended): when the stop signal is raised the receiver of
src/src/lib.rs observes it at the start of its next loop iteration and
exits normally, after which `ping` computes the final report from the
aggregate counters; the sender loop of src/src/lib.rs, however, never
observes the stop flag — its iteration is identical whether or not the
session was cancelled — and keeps issuing queries until the process
exits. -/
theorem stop_receiver_exits_sender_ignores :
    (∀ (dest : Nat) (s : RecvState) (r : RecvResult),
      recvIter dest true s r = .finished s) ∧
    (∀ (st : SendState) (now : Nat) (sendOk : Bool),
      libSenderIter true st now sendOk = libSenderIter false st now sendOk) := by
  exact ⟨fun dest s r => rfl, fun st now sendOk => rfl⟩

/-- C9: the claim states that on a failed send the sent counter is still
incremented for that probe. In src/src/lib.rs:172-177 the counter is
incremented only in the `Ok` branch: a failed send from the initial state
leaves the counter at `0`, not `1`. -/
theorem sender_failure_sent_unchanged :
    ((libSenderIter false sendInit 3 false).1).sent = 0 ∧
      ((libSenderIter false sendInit 3 false).1).sent ≠ 0 + 1 := by
  constructor
  · rfl
  · intro h
    simp [libSenderIter, sendInit] at h

/-- C9 (amended): on a send failure the sender of src/src/lib.rs:171-177
prints the error to stderr and the loop continues to the next probe
(`libSenderIter` is total: no iteration returns or escalates), but the
sent counter is NOT incremented for the failed probe; it is incremented
exactly on successful sends. -/
theorem sender_failure_continues_no_increment :
    (∀ (stopOn : Bool) (st : SendState) (now : Nat),
      ((libSenderIter stopOn st now false).1).sent = st.sent ∧
        (libSenderIter stopOn st now false).2 = true) ∧
    (∀ (stopOn : Bool) (st : SendState) (now : Nat),
      ((libSenderIter stopOn st now true).1).sent = (st.sent + 1) % U64 ∧
        (libSenderIter stopOn st now true).2 = false) := by
  exact ⟨fun stopOn st now => ⟨rfl, rfl⟩, fun stopOn st now => ⟨rfl, rfl⟩⟩

/-- The next query id of the sender of src/src/lib.rs:156-158:
`id += 1` on a `u16`, so the value wraps modulo `2 ^ 16` (release-profile
two-complement semantics of the overflowing add). -/
def libNextId (id : Nat) : Nat := (id + 1) % u16Mod

/-- The probe id of src/src/main.rs:343-347, from the previous value `c`
of the `usize` send counter:
`send.fetch_add(1, Relaxed).checked_add(1).unwrap_or(0)` — the checked
increment of `c` falls back to `0` at `usize::MAX` instead of panicking. -/
def mainProbeId (c : Nat) : Nat := if c = usizeMax then 0 else c + 1

/-- The 16-bit transaction id actually placed in the query at
src/src/main.rs:351: `id as u16`, a truncating cast. -/
def mainProbeId16 (c : Nat) : Nat := mainProbeId c % u16Mod

/-- C7: the query identifier is 16 bits and increases by one per probe:
in src/src/lib.rs it is `id + 1` below the maximum and wraps from `65535`
to `0`; in src/src/main.rs the truncated id of the probe with previous
counter value `c` is `(c + 1) % 2 ^ 16` — again an increase by one per
probe modulo `2 ^ 16`, wrapping from `65535` to `0` — and the `usize`
overflow at `c = usize::MAX` is absorbed by `checked_add(1).unwrap_or(0)`
without a panic or an error. -/
theorem queryId_increments_and_wraps :
    (∀ id : Nat, id < u16Mod - 1 → libNextId id = id + 1) ∧
    libNextId (u16Mod - 1) = 0 ∧
    (∀ c : Nat, c < U64 → mainProbeId16 c = (c + 1) % u16Mod) ∧
    mainProbeId16 (u16Mod - 1) = 0 := by
  have hm : u16Mod = 65536 := rfl
  refine ⟨?_, by decide, ?_, by decide⟩
  · intro id hid
    unfold libNextId
    rw [hm] at hid ⊢
    omega
  · intro c hc
    unfold mainProbeId16 mainProbeId
    split
    · rename_i h
      subst h
      decide
    · rfl

/-- Witness for `queryId_increments_and_wraps` at id `7` and previous
counter value `41`. -/
theorem queryId_increments_and_wraps_witness :
    libNextId 7 = 7 + 1 ∧ mainProbeId16 41 = (41 + 1) % u16Mod := by
  exact ⟨queryId_increments_and_wraps.1 7 (by norm_num [u16Mod]),
    queryId_increments_and_wraps.2.2.1 41 (by norm_num [U64])⟩

/-- The sleep before the next probe in src/src/main.rs:389-394:
`Duration::from_millis(interval).checked_sub(Duration::from_millis(elapsed_ms)).unwrap_or(zero)`
in whole milliseconds — the subtraction clamped to zero. -/
def mainRemain (interval elapsedMs : Nat) : Nat :=
  if elapsedMs ≤ interval then interval - elapsedMs else 0

/-- The sleep at the end of each sender iteration in src/src/lib.rs:180:
`thread::sleep(Duration::from_millis(PERIOD))` — a fixed `PERIOD`
(1000 ms), taking no account of the time already spent on the probe. -/
def libSleepMs (_elapsedMs : Nat) : Nat := PERIOD

/-- C8: the claim states that after every probe the sender sleeps the
interval minus the time spent, so a probe that took at least the interval
is followed by a zero sleep. The sender of src/src/lib.rs:180 sleeps the
fixed 1000 ms `PERIOD`: after a probe that took exactly the 1000 ms
period, it still sleeps 1000 ms, not 0. -/
theorem libSleep_not_clamped :
    libSleepMs PERIOD = PERIOD ∧ libSleepMs PERIOD ≠ 0 := by
  exact ⟨rfl, by decide⟩

/-- C8 (amended): the probe loop of src/src/main.rs:389-394 sleeps
`max (interval - elapsed) 0` milliseconds — never negative, and zero for
every probe whose handling took at least the interval — while the
continuous-mode sender of src/src/lib.rs:180 always sleeps the fixed
1000 ms `PERIOD` regardless of the time spent. -/
theorem sleep_clamped_main_fixed_lib :
    (∀ interval elapsedMs : Nat,
      (mainRemain interval elapsedMs : ℤ)
        = max ((interval : ℤ) - (elapsedMs : ℤ)) 0) ∧
    (∀ interval elapsedMs : Nat, interval ≤ elapsedMs →
      mainRemain interval elapsedMs = 0) ∧
    (∀ elapsedMs : Nat, libSleepMs elapsedMs = PERIOD) := by
  refine ⟨?_, ?_, fun _ => rfl⟩
  · intro interval elapsedMs
    unfold mainRemain
    split <;> omega
  · intro interval elapsedMs h
    unfold mainRemain
    split <;> omega

/-- Witness for `sleep_clamped_main_fixed_lib` at an interval of 1000 ms
and a probe that took 2500 ms. -/
theorem sleep_clamped_main_fixed_lib_witness :
    (1000 : Nat) ≤ 2500 ∧ mainRemain 1000 2500 = 0 :=
  ⟨by norm_num, sleep_clamped_main_fixed_lib.2.1 1000 2500 (by norm_num)⟩

end Dnsping
